import Mathlib

/-!
Verification of the bubble-museum camera/interaction core.

Shallow embedding of the repository's JavaScript sources:
- CameraCtrl   embeds src/js/CameraController.js (orbit camera)
- Bubbles      embeds the BubbleManager class (sphere layout, per-frame
  transform, screen-space picking)
- Walk         embeds the DetailView FPS camera (movement + interpolation)
- Sched        embeds the PortfolioMuseum animation loop (frame throttling)
- Ctor         embeds the PortfolioMuseum constructor validation

JavaScript floating-point numbers are modelled as real numbers
(timestamps of the scheduler as rationals, so the throttling scenario is
decidable); Math.sqrt, Math.sin, Math.cos, Math.acos, Math.PI and
Math.round are modelled by their exact real counterparts.
-/

noncomputable section

namespace CameraCtrl

/-- src/js/CameraController.js line 21. -/
def MIN_ZOOM : ℝ := 0.5

/-- src/js/CameraController.js line 22. -/
def MAX_ZOOM : ℝ := 2.0

/-- src/js/CameraController.js line 25. -/
def EASING_FACTOR : ℝ := 0.1

/-- src/js/CameraController.js line 18. -/
def ROTATION_LIMIT : ℝ := 360

/-- src/js/CameraController.js line 33. -/
def dragSensitivity : ℝ := 0.3

/-- The mutable fields of the CameraController instance
(src/js/CameraController.js, constructor, lines 10-39). -/
structure State where
  rotationX : ℝ
  rotationY : ℝ
  zoom : ℝ
  targetRotationX : ℝ
  targetRotationY : ℝ
  targetZoom : ℝ
  isDragging : Bool
  hasMoved : Bool
  clickedOnBubble : Bool
  lastMousePos : Option (ℝ × ℝ)
  dragStartPos : Option (ℝ × ℝ)
  touchStartPos : Option (ℝ × ℝ)
  lastTouchPos : Option (ℝ × ℝ)
  initialPinchDistance : Option ℝ
  initialPinchZoom : Option ℝ

/-- Initial state from the constructor: rotation (0, 40), zoom 0.7,
targets equal to current, no drag or touch in progress. -/
def initState : State :=
  { rotationX := 0, rotationY := 40, zoom := 0.7,
    targetRotationX := 0, targetRotationY := 40, targetZoom := 0.7,
    isDragging := false, hasMoved := false, clickedOnBubble := false,
    lastMousePos := none, dragStartPos := none, touchStartPos := none,
    lastTouchPos := none, initialPinchDistance := none,
    initialPinchZoom := none }

/-- handleWheel (lines 161-171): delta = deltaY * -0.001 is added to
targetZoom, which is then clamped to [MIN_ZOOM, MAX_ZOOM]. -/
def handleWheel (deltaY : ℝ) (s : State) : State :=
  let delta := deltaY * (-0.001)
  let tz := s.targetZoom + delta
  { s with targetZoom := max MIN_ZOOM (min MAX_ZOOM tz) }

/-- update (lines 274-291): lerp each axis and the zoom toward its target
by EASING_FACTOR, then re-clamp the current zoom. -/
def update (s : State) : State :=
  let rx := s.rotationX + (s.targetRotationX - s.rotationX) * EASING_FACTOR
  let ry := s.rotationY + (s.targetRotationY - s.rotationY) * EASING_FACTOR
  let z := s.zoom + (s.targetZoom - s.zoom) * EASING_FACTOR
  { s with rotationX := rx, rotationY := ry,
           zoom := max MIN_ZOOM (min MAX_ZOOM z) }

/-- getTouchDistance (lines 263-267): Euclidean distance between the two
touch points. -/
def getTouchDistance (touch1 touch2 : ℝ × ℝ) : ℝ :=
  let dx := touch2.1 - touch1.1
  let dy := touch2.2 - touch1.2
  Real.sqrt (dx * dx + dy * dy)

/-- handleMouseMove (lines 126-155).  The early return fires unless a drag
is in progress with a recorded last mouse position; dragStartPos is always
set together with lastMousePos (handleMouseDown), so both are matched. -/
def handleMouseMove (clientX clientY : ℝ) (s : State) : State :=
  match s.lastMousePos, s.dragStartPos with
  | some lm, some ds =>
    if s.isDragging then
      let deltaX := clientX - lm.1
      let deltaY := clientY - lm.2
      let totalDeltaX := clientX - ds.1
      let totalDeltaY := clientY - ds.2
      let distance := Real.sqrt (totalDeltaX * totalDeltaX + totalDeltaY * totalDeltaY)
      { s with
        hasMoved := if 5 < distance then true else s.hasMoved,
        targetRotationY := s.targetRotationY - deltaX * dragSensitivity,
        targetRotationX := s.targetRotationX - deltaY * dragSensitivity,
        lastMousePos := some (clientX, clientY) }
    else s
  | _, _ => s

/-- handleTouchStart (lines 177-193): one finger baselines single-touch
tracking, two fingers capture the initial pinch distance and zoom. -/
def handleTouchStart (touches : List (ℝ × ℝ)) (s : State) : State :=
  match touches with
  | [t] => { s with touchStartPos := some t, lastTouchPos := some t }
  | [t1, t2] =>
    { s with initialPinchDistance := some (getTouchDistance t1 t2),
             initialPinchZoom := some s.targetZoom }
  | _ => s

/-- handleTouchMove (lines 199-236).  One finger: rotation deltas scaled by
0.2 and both target axes clamped to [-ROTATION_LIMIT, ROTATION_LIMIT].
Two fingers: targetZoom := initialPinchZoom * (currentDistance /
initialPinchDistance), clamped to the zoom range.  (JS coerces a null
initialPinchZoom to 0 in the product, hence Option.getD 0; both pinch
fields are always set together in handleTouchStart.) -/
def handleTouchMove (touches : List (ℝ × ℝ)) (s : State) : State :=
  match touches with
  | [t] =>
    (match s.lastTouchPos with
     | some lp =>
       let deltaX := t.1 - lp.1
       let deltaY := t.2 - lp.2
       let sensitivity : ℝ := 0.2
       let ty := s.targetRotationY + deltaX * sensitivity
       let tx := s.targetRotationX - deltaY * sensitivity
       { s with
         targetRotationX := max (-ROTATION_LIMIT) (min ROTATION_LIMIT tx),
         targetRotationY := max (-ROTATION_LIMIT) (min ROTATION_LIMIT ty),
         lastTouchPos := some t }
     | none => s)
  | [t1, t2] =>
    (match s.initialPinchDistance with
     | some d0 =>
       let currentDistance := getTouchDistance t1 t2
       let scale := currentDistance / d0
       let tz := (s.initialPinchZoom.getD 0) * scale
       { s with targetZoom := max MIN_ZOOM (min MAX_ZOOM tz) }
     | none => s)
  | _ => s

/-- The operations the zoom-bounds claim quantifies over: wheel events and
update ticks. -/
inductive OrbitOp where
  | wheel (deltaY : ℝ)
  | tick

/-- Apply one orbit-camera operation. -/
def applyOp (s : State) : OrbitOp → State
  | OrbitOp.wheel d => handleWheel d s
  | OrbitOp.tick => update s

/-- Both the target zoom and the interpolated current zoom lie in
[MIN_ZOOM, MAX_ZOOM]. -/
def zoomInBounds (s : State) : Prop :=
  MIN_ZOOM ≤ s.targetZoom ∧ s.targetZoom ≤ MAX_ZOOM ∧
  MIN_ZOOM ≤ s.zoom ∧ s.zoom ≤ MAX_ZOOM

/-- Euclidean distance between two screen points, written as in the spec
(squares of the coordinate differences). -/
def euclideanDist (p q : ℝ × ℝ) : ℝ :=
  Real.sqrt ((q.1 - p.1) ^ 2 + (q.2 - p.2) ^ 2)

/-- A concrete camera state used for the contraction witness. -/
def camS0 : State :=
  { initState with targetRotationX := 1, targetRotationY := 2, targetZoom := 1 }

/-- A concrete camera state with a single-finger touch drag in progress. -/
def camTouch0 : State :=
  { initState with lastTouchPos := some (0, 0) }

/-- A concrete mid-pinch camera state: the captured baseline (distance 5,
zoom 1) persists while targetZoom (0.7) has already drifted away from the
captured zoom, as happens after earlier moves of the same gesture. -/
def camPinch0 : State :=
  { initState with initialPinchDistance := some 5, initialPinchZoom := some 1 }

end CameraCtrl

namespace Bubbles

/-- BubbleManager (src/unnamed/part_002 line 205). -/
def SPHERE_RADIUS : ℝ := 500

/-- BubbleManager (src/unnamed/part_002 line 208). -/
def POSITION_OFFSET : ℝ := 50

/-- BubbleManager (src/unnamed/part_002 line 211). -/
def FLOAT_SPEED : ℝ := 0.001

/-- BubbleManager (src/unnamed/part_002 line 212). -/
def FLOAT_AMPLITUDE : ℝ := 10

/-- A generated sphere position: spherical coordinates plus their Cartesian
projection (src/unnamed/part_002 lines 244-253). -/
structure SpherePoint where
  radius : ℝ
  theta : ℝ
  phi : ℝ
  x : ℝ
  y : ℝ
  z : ℝ

/-- calculateBubblePositions (src/unnamed/part_002 lines 223-257).
Math.random() is modelled by an injected sequence rnd indexed by the loop
counter; numBubbles is the length of the data array. -/
def calculateBubblePositions (rnd : ℕ → ℝ) (numBubbles : ℕ) : List SpherePoint :=
  (List.range numBubbles).map (fun (i : ℕ) =>
    let goldenRatio := (1 + Real.sqrt 5) / 2
    let angleIncrement := Real.pi * 2 * goldenRatio
    let t := (i : ℝ) / (numBubbles : ℝ)
    let phi := Real.arccos (1 - 2 * t)
    let theta := angleIncrement * (i : ℝ)
    let radiusOffset := (rnd i - 0.5) * POSITION_OFFSET
    let radius := SPHERE_RADIUS + radiusOffset
    { radius := radius, theta := theta, phi := phi,
      x := radius * Real.sin phi * Real.cos theta,
      y := radius * Real.sin phi * Real.sin theta,
      z := radius * Real.cos phi })

/-- Result of one bubble's per-frame transform: the CSS coordinates and the
z-index draw-order key. -/
structure BubbleTransform where
  x : ℝ
  y : ℝ
  z : ℝ
  zIndex : ℤ

/-- updateBubbles (src/unnamed/part_002 lines 362-402), restricted to the
numeric transform it writes for each bubble: rotate the stored position
around the Y axis then around the X axis, add the floating offset to y
unless reduced motion is preferred, scale by zoom, and derive the z-index
Math.round(1000 + z).  rotationX/rotationY are in degrees as in the camera
state; timestamp is the performance.now() value. -/
def updateBubbles (rotationX rotationY zoom : ℝ) (prefersReducedMotion : Bool)
    (timestamp : ℝ) (positions : List (ℝ × ℝ × ℝ)) : List BubbleTransform :=
  let rotX := rotationX * Real.pi / 180
  let rotY := rotationY * Real.pi / 180
  positions.enum.map (fun ip =>
    let index := ip.1
    let pos := ip.2
    let x1 := pos.1 * Real.cos rotY - pos.2.2 * Real.sin rotY
    let z1 := pos.1 * Real.sin rotY + pos.2.2 * Real.cos rotY
    let y1 := pos.2.1 * Real.cos rotX - z1 * Real.sin rotX
    let z2 := pos.2.1 * Real.sin rotX + z1 * Real.cos rotX
    let y2 := if prefersReducedMotion then y1
              else y1 + Real.sin (timestamp * FLOAT_SPEED + (index : ℝ)) * FLOAT_AMPLITUDE
    let x3 := x1 * zoom
    let y3 := y2 * zoom
    let z3 := z2 * zoom
    { x := x3, y := y3, z := z3, zIndex := round ((1000 : ℝ) + z3) })

/-- Rotation about the vertical (Y) axis, as the spec words it. -/
def rotateY (angle : ℝ) (v : ℝ × ℝ × ℝ) : ℝ × ℝ × ℝ :=
  (v.1 * Real.cos angle - v.2.2 * Real.sin angle,
   v.2.1,
   v.1 * Real.sin angle + v.2.2 * Real.cos angle)

/-- Rotation about the horizontal (X) axis, as the spec words it. -/
def rotateX (angle : ℝ) (v : ℝ × ℝ × ℝ) : ℝ × ℝ × ℝ :=
  (v.1,
   v.2.1 * Real.cos angle - v.2.2 * Real.sin angle,
   v.2.1 * Real.sin angle + v.2.2 * Real.cos angle)

/-- Modelled from the spec's words, for comparison with updateBubbles:
rotate by yaw about the vertical axis, then by pitch about the horizontal
axis, then (unless reduced motion) add amplitude * sin(speed * t + index)
to the vertical coordinate, then multiply all axes by zoom; the draw-order
key is the rounding of 1000 + z. -/
def specBubbleTransform (rotationX rotationY zoom : ℝ) (prm : Bool)
    (t : ℝ) (index : ℕ) (pos : ℝ × ℝ × ℝ) : BubbleTransform :=
  let v := rotateX (rotationX * Real.pi / 180) (rotateY (rotationY * Real.pi / 180) pos)
  let yOsc := if prm then v.2.1
              else v.2.1 + FLOAT_AMPLITUDE * Real.sin (FLOAT_SPEED * t + (index : ℝ))
  { x := zoom * v.1, y := zoom * yOsc, z := zoom * v.2.2,
    zIndex := round ((1000 : ℝ) + zoom * v.2.2) }

/-- getBubbleAt (src/unnamed/part_002 line 412). -/
def TOLERANCE : ℝ := 10

/-- getBubbleAt (src/unnamed/part_002 line 413). -/
def BUBBLE_RADIUS : ℝ := 60

/-- A bubble as the picker sees it: its screen-space center (from
getBoundingClientRect) and the value of its --scale CSS property
(none when the property is unset or unparsable). -/
structure PickBubble where
  centerX : ℝ
  centerY : ℝ
  scaleProp : Option ℝ

/-- parseFloat(element.style.getPropertyValue('--scale')) || 1
(line 432): a missing/NaN parse and a parsed 0 are both falsy in JS and
fall back to 1. -/
def bubbleScale (b : PickBubble) : ℝ :=
  match b.scaleProp with
  | some v => if v = 0 then 1 else v
  | none => 1

/-- Distance from the query point to a bubble's center (lines 427-429). -/
def pickDistance (x y : ℝ) (b : PickBubble) : ℝ :=
  let dx := x - b.centerX
  let dy := y - b.centerY
  Real.sqrt (dx * dx + dy * dy)

/-- The hit-test threshold (line 436): within the scaled radius plus the
tolerance. -/
def isCandidate (x y : ℝ) (b : PickBubble) : Prop :=
  pickDistance x y b ≤ BUBBLE_RADIUS * bubbleScale b + TOLERANCE

/-- One iteration of the forEach in getBubbleAt (lines 418-443).  The
accumulator carries the closest bubble so far with its distance; none
plays the role of the initial closestDistance = Infinity. -/
def pickStep (x y : ℝ) (acc : Option (PickBubble × ℝ)) (b : PickBubble) :
    Option (PickBubble × ℝ) :=
  let distance := pickDistance x y b
  let effectiveRadius := BUBBLE_RADIUS * bubbleScale b
  if distance ≤ effectiveRadius + TOLERANCE then
    match acc with
    | none => some (b, distance)
    | some (b0, closestDistance) =>
      if distance < closestDistance then some (b, distance) else some (b0, closestDistance)
  else acc

/-- getBubbleAt (src/unnamed/part_002 lines 411-446). -/
def getBubbleAt (x y : ℝ) (bubbles : List PickBubble) : Option PickBubble :=
  (bubbles.foldl (pickStep x y) none).map Prod.fst

/-- A concrete bubble for the picker witness. -/
def pickB0 : PickBubble := { centerX := 0, centerY := 0, scaleProp := some 1 }

end Bubbles

namespace Walk

/-- DetailView (src/unnamed/part_000 line 25). -/
def moveSpeed : ℝ := 8

/-- DetailView (src/unnamed/part_000 line 28). -/
def hallwayLength : ℝ := 3200

/-- DetailView (src/unnamed/part_000 line 29). -/
def hallwayWidth : ℝ := 700

/-- DetailView (src/unnamed/part_000 line 30). -/
def hallwayForwardLimit : ℝ := 600

/-- DetailView (src/unnamed/part_000 line 38). -/
def mouseSensitivity : ℝ := 0.3

/-- DetailView (src/unnamed/part_000 line 42). -/
def MIN_PITCH : ℝ := -60

/-- DetailView (src/unnamed/part_000 line 43). -/
def MAX_PITCH : ℝ := 60

/-- The FPS camera fields of DetailView (src/unnamed/part_000 lines
18-43). -/
structure State where
  rotationX : ℝ
  rotationY : ℝ
  targetRotationX : ℝ
  targetRotationY : ℝ
  positionX : ℝ
  positionY : ℝ
  positionZ : ℝ
  targetPositionX : ℝ
  targetPositionY : ℝ
  targetPositionZ : ℝ
  keyW : Bool
  keyA : Bool
  keyS : Bool
  keyD : Bool

/-- Initial walk-camera state: looking down the hallway from the entrance
at (0, 0, 600). -/
def initState : State :=
  { rotationX := 0, rotationY := 0, targetRotationX := 0, targetRotationY := 0,
    positionX := 0, positionY := 0, positionZ := 600,
    targetPositionX := 0, targetPositionY := 0, targetPositionZ := 600,
    keyW := false, keyA := false, keyS := false, keyD := false }

/-- updateMovement (src/unnamed/part_000 lines 980-1013): accumulate the
active keys' contributions along the current yaw, clamp the target to the
hallway box, pin target y to 0. -/
def updateMovement (s : State) : State :=
  let yaw := s.rotationY * Real.pi / 180
  let s1 := if s.keyW then
      { s with targetPositionX := s.targetPositionX - Real.sin yaw * moveSpeed,
               targetPositionZ := s.targetPositionZ - Real.cos yaw * moveSpeed }
    else s
  let s2 := if s.keyS then
      { s1 with targetPositionX := s1.targetPositionX + Real.sin yaw * moveSpeed,
                targetPositionZ := s1.targetPositionZ + Real.cos yaw * moveSpeed }
    else s1
  let s3 := if s.keyA then
      { s2 with targetPositionX := s2.targetPositionX - Real.cos yaw * moveSpeed,
                targetPositionZ := s2.targetPositionZ + Real.sin yaw * moveSpeed }
    else s2
  let s4 := if s.keyD then
      { s3 with targetPositionX := s3.targetPositionX + Real.cos yaw * moveSpeed,
                targetPositionZ := s3.targetPositionZ - Real.sin yaw * moveSpeed }
    else s3
  { s4 with
    targetPositionX := max (-hallwayWidth) (min hallwayWidth s4.targetPositionX),
    targetPositionZ := max (-hallwayLength) (min hallwayForwardLimit s4.targetPositionZ),
    targetPositionY := 0 }

/-- updateCamera (src/unnamed/part_000 lines 910-937), the per-tick state
change: resolve movement, then lerp rotation (0.15) and position (0.12)
toward their targets. -/
def updateCamera (s : State) : State :=
  let m := updateMovement s
  { m with
    rotationX := m.rotationX + (m.targetRotationX - m.rotationX) * 0.15,
    rotationY := m.rotationY + (m.targetRotationY - m.rotationY) * 0.15,
    positionX := m.positionX + (m.targetPositionX - m.positionX) * 0.12,
    positionY := m.positionY + (m.targetPositionY - m.positionY) * 0.12,
    positionZ := m.positionZ + (m.targetPositionZ - m.positionZ) * 0.12 }

/-- handleKeyDown (src/unnamed/part_000 lines 953-961), restricted to its
state effect: set one movement key. -/
def handleKeyDown (k : Fin 4) (s : State) : State :=
  match k with
  | 0 => { s with keyW := true }
  | 1 => { s with keyA := true }
  | 2 => { s with keyS := true }
  | 3 => { s with keyD := true }

/-- handleKeyUp (src/unnamed/part_000 lines 967-975): clear one movement
key. -/
def handleKeyUp (k : Fin 4) (s : State) : State :=
  match k with
  | 0 => { s with keyW := false }
  | 1 => { s with keyA := false }
  | 2 => { s with keyS := false }
  | 3 => { s with keyD := false }

/-- handleMouseMove (src/unnamed/part_000 lines 864-888), restricted to
its rotation effect given the pointer deltas: yaw unclamped, pitch clamped
to [MIN_PITCH, MAX_PITCH]. -/
def handleLook (deltaX deltaY : ℝ) (s : State) : State :=
  { s with
    targetRotationY := s.targetRotationY - deltaX * mouseSensitivity,
    targetRotationX := max MIN_PITCH (min MAX_PITCH (s.targetRotationX - deltaY * mouseSensitivity)) }

/-- The events that can reach the walk camera between ticks. -/
inductive WalkOp where
  | tick
  | keyDown (k : Fin 4)
  | keyUp (k : Fin 4)
  | look (deltaX deltaY : ℝ)

/-- Apply one walk-camera operation. -/
def applyWalkOp (s : State) : WalkOp → State
  | WalkOp.tick => updateCamera s
  | WalkOp.keyDown k => handleKeyDown k s
  | WalkOp.keyUp k => handleKeyUp k s
  | WalkOp.look dx dy => handleLook dx dy s

/-- Membership in the hallway box. -/
def inBox (x z : ℝ) : Prop :=
  -hallwayWidth ≤ x ∧ x ≤ hallwayWidth ∧
  -hallwayLength ≤ z ∧ z ≤ hallwayForwardLimit

/-- The boundary invariant: target and current position inside the
hallway box, both pinned to y = 0. -/
def walkInv (s : State) : Prop :=
  inBox s.targetPositionX s.targetPositionZ ∧ s.targetPositionY = 0 ∧
  inBox s.positionX s.positionZ ∧ s.positionY = 0

/-- The W-held scenario start state. -/
def wState : State := { initState with keyW := true }

end Walk

namespace Sched

/-- The museum state the animation loop touches (src/js/PortfolioMuseum.js):
the orbit camera, the bubble positions and their last written transforms,
the reduced-motion flag sampled at build time, and the timestamp of the
last accepted frame. -/
structure MuseumState where
  cam : CameraCtrl.State
  positions : List (ℝ × ℝ × ℝ)
  transforms : List Bubbles.BubbleTransform
  prefersReducedMotion : Bool
  lastFrame : ℚ

/-- animate (src/js/PortfolioMuseum.js lines 138-163): if the elapsed time
since the last accepted frame is below 16.67 ms, reschedule without any
work; otherwise update the camera, recompute every bubble transform and
record the timestamp.  The returned Bool reports whether work was done. -/
def animate (s : MuseumState) (timestamp : ℚ) : MuseumState × Bool :=
  let deltaTime := timestamp - s.lastFrame
  if deltaTime < 1667 / 100 then (s, false)
  else
    let cam := CameraCtrl.update s.cam
    ({ s with
        cam := cam,
        transforms := Bubbles.updateBubbles cam.rotationX cam.rotationY cam.zoom
          s.prefersReducedMotion (timestamp : ℝ) s.positions,
        lastFrame := timestamp }, true)

/-- Fold step for a run of animation callbacks, counting accepted frames. -/
def animStep (p : MuseumState × ℕ) (t : ℚ) : MuseumState × ℕ :=
  let r := animate p.1 t
  (r.1, p.2 + (if r.2 then 1 else 0))

/-- Run the loop over a list of callback timestamps, returning the final
state and the number of frames that did work. -/
def animateRun (s : MuseumState) (ts : List ℚ) : MuseumState × ℕ :=
  ts.foldl animStep (s, 0)

/-- The throttling decision alone: same fold on (lastFrame, work count). -/
def throttleStep (p : ℚ × ℕ) (t : ℚ) : ℚ × ℕ :=
  if t - p.1 < 1667 / 100 then p else (t, p.2 + 1)

/-- Number of accepted frames of the throttling decision alone. -/
def throttleCount (last : ℚ) (ts : List ℚ) : ℕ :=
  (ts.foldl throttleStep (last, 0)).2

/-- A concrete museum state at loop start (lastFrame = 0). -/
def museumS0 : MuseumState :=
  { cam := CameraCtrl.initState, positions := [], transforms := [],
    prefersReducedMotion := false, lastFrame := 0 }

/-- Callback timestamps arriving every 5 ms: 0, 5, ..., 80. -/
def fiveMsTicks : List ℚ := (List.range 17).map (fun i => 5 * (i : ℚ))

end Sched

namespace Ctor

/-- What config.container can be once DOM lookup is abstracted: a selector
string that resolves, a selector string that does not, an HTMLElement, or
a truthy value of any other type. -/
inductive ContainerVal where
  | selectorFound
  | selectorNotFound
  | element
  | invalid

/-- What a truthy config.data can be: an array of items (items reduced to
their identity) or a truthy non-array value. -/
inductive DataVal where
  | nonArrayTruthy
  | array (items : List ℕ)

/-- The configuration object; none in a field models a missing or falsy
value, which the constructor's !-checks reject. -/
structure Config where
  container : Option ContainerVal
  data : Option DataVal

/-- The device-capability flags getOptimalBubbleCount branches on. -/
structure DeviceInfo where
  isMobile : Bool
  isTablet : Bool
  isLowEnd : Bool

/-- getOptimalBubbleCount (src/js/utils.js lines 78-92). -/
def getOptimalBubbleCount (totalItems : ℕ) (d : DeviceInfo) : ℕ :=
  if d.isMobile then min totalItems 10
  else if d.isTablet then min totalItems 15
  else if d.isLowEnd then min totalItems 20
  else totalItems

/-- The PortfolioMuseum constructor's validation and data slicing
(src/js/PortfolioMuseum.js lines 12-59): reject a missing config, a
missing/falsy container, missing/falsy data, an unresolvable or invalid
container, and non-array or empty data; otherwise keep the first
optimalCount items. -/
def constructorCheck (d : DeviceInfo) (config : Option Config) :
    Except String (List ℕ) :=
  match config with
  | none => .error ("PortfolioMuseum requires a configuration object")
  | some cfg =>
    match cfg.container with
    | none => .error ("PortfolioMuseum requires a container in config")
    | some cont =>
      match cfg.data with
      | none => .error ("PortfolioMuseum requires portfolio data in config")
      | some dat =>
        match cont with
        | ContainerVal.selectorNotFound => .error ("Container not found")
        | ContainerVal.invalid =>
          .error ("Container must be a CSS selector string or HTMLElement")
        | _ =>
          match dat with
          | DataVal.nonArrayTruthy =>
            .error ("Portfolio data must be a non-empty array")
          | DataVal.array [] =>
            .error ("Portfolio data must be a non-empty array")
          | DataVal.array items =>
            .ok (items.take (getOptimalBubbleCount items.length d))

/-- Concrete config with an empty data array, for the witness. -/
def cfgEmpty : Config :=
  { container := some ContainerVal.element, data := some (DataVal.array []) }

/-- Desktop device flags. -/
def devDesktop : DeviceInfo := { isMobile := false, isTablet := false, isLowEnd := false }

end Ctor

end

/-! ## Shared clamp lemmas -/

lemma clamp_mem (m M x : ℝ) (h : m ≤ M) :
    m ≤ max m (min M x) ∧ max m (min M x) ≤ M :=
  ⟨le_max_left _ _, max_le h (min_le_left _ _)⟩

lemma abs_sub_clamp_le (m M t v : ℝ) (hm : m ≤ t) (hM : t ≤ M) :
    |t - max m (min M v)| ≤ |t - v| := by
  rcases le_total v m with h | h
  · rw [min_eq_right (le_trans h (le_trans hm hM)), max_eq_left h,
      abs_of_nonneg (by linarith), abs_of_nonneg (by linarith)]
    linarith
  · rcases le_total M v with h2 | h2
    · rw [min_eq_left h2, max_eq_right (le_trans hm hM),
        abs_of_nonpos (by linarith), abs_of_nonpos (by linarith)]
      linarith
    · rw [min_eq_right h2, max_eq_right h]

lemma lerp_contract (t c : ℝ) (h : t ≠ c) :
    |t - (c + (t - c) * CameraCtrl.EASING_FACTOR)| < |t - c| := by
  have e : t - (c + (t - c) * CameraCtrl.EASING_FACTOR) = (t - c) * (9 / 10) := by
    rw [show CameraCtrl.EASING_FACTOR = (1 : ℝ) / 10 from by
      norm_num [CameraCtrl.EASING_FACTOR]]
    ring
  have habs : 0 < |t - c| := abs_pos.2 (sub_ne_zero.2 h)
  rw [e, abs_mul, show |(9 / 10 : ℝ)| = 9 / 10 from by norm_num]
  linarith

/-! ## C1: zoom bounds invariant of the orbit camera -/

lemma camera_bounds_init : CameraCtrl.zoomInBounds CameraCtrl.initState := by
  norm_num [CameraCtrl.zoomInBounds, CameraCtrl.initState, CameraCtrl.MIN_ZOOM,
    CameraCtrl.MAX_ZOOM]

lemma camera_bounds_step (s : CameraCtrl.State) (h : CameraCtrl.zoomInBounds s)
    (op : CameraCtrl.OrbitOp) : CameraCtrl.zoomInBounds (CameraCtrl.applyOp s op) := by
  have hmm : CameraCtrl.MIN_ZOOM ≤ CameraCtrl.MAX_ZOOM := by
    norm_num [CameraCtrl.MIN_ZOOM, CameraCtrl.MAX_ZOOM]
  cases op with
  | wheel d =>
    obtain ⟨h1, h2⟩ := clamp_mem CameraCtrl.MIN_ZOOM CameraCtrl.MAX_ZOOM
      (s.targetZoom + d * (-0.001)) hmm
    exact ⟨h1, h2, h.2.2.1, h.2.2.2⟩
  | tick =>
    obtain ⟨h1, h2⟩ := clamp_mem CameraCtrl.MIN_ZOOM CameraCtrl.MAX_ZOOM
      (s.zoom + (s.targetZoom - s.zoom) * CameraCtrl.EASING_FACTOR) hmm
    exact ⟨h.1, h.2.1, h1, h2⟩

lemma camera_bounds_foldl (ops : List CameraCtrl.OrbitOp) :
    ∀ s, CameraCtrl.zoomInBounds s →
      CameraCtrl.zoomInBounds (ops.foldl CameraCtrl.applyOp s) := by
  induction ops with
  | nil => intro s h; simpa using h
  | cons op rest ih =>
    intro s h
    simpa using ih _ (camera_bounds_step s h op)

/-- Claim C1: starting from the initial state (zoom 0.7), every sequence of
wheel inputs (arbitrary deltaY) and update ticks keeps both targetZoom and
the interpolated current zoom within [MIN_ZOOM, MAX_ZOOM] = [0.5, 2.0]
after every operation: the target is clamped on input and the current
value re-clamped after each interpolation step. -/
theorem claimC1_zoom_bounds (ops : List CameraCtrl.OrbitOp) :
    CameraCtrl.zoomInBounds (ops.foldl CameraCtrl.applyOp CameraCtrl.initState) :=
  camera_bounds_foldl ops _ camera_bounds_init

/-! ## C2: update() is a contraction with the target as fixed point -/

/-- Claim C2: for each rotation axis and for the zoom, one update() strictly
shrinks the gap |target - current| whenever it is nonzero (easing factor
0.1; the zoom target is always within its clamped bounds in any reachable
state, which the zoom cases assume), and leaves current exactly unchanged
whenever target equals current (with zoom within bounds). -/
theorem claimC2_contraction (s : CameraCtrl.State) :
    (s.targetRotationX ≠ s.rotationX →
      |s.targetRotationX - (CameraCtrl.update s).rotationX| <
        |s.targetRotationX - s.rotationX|) ∧
    (s.targetRotationY ≠ s.rotationY →
      |s.targetRotationY - (CameraCtrl.update s).rotationY| <
        |s.targetRotationY - s.rotationY|) ∧
    (s.targetZoom ≠ s.zoom → CameraCtrl.MIN_ZOOM ≤ s.targetZoom →
      s.targetZoom ≤ CameraCtrl.MAX_ZOOM →
      |s.targetZoom - (CameraCtrl.update s).zoom| < |s.targetZoom - s.zoom|) ∧
    (s.targetRotationX = s.rotationX →
      (CameraCtrl.update s).rotationX = s.rotationX) ∧
    (s.targetRotationY = s.rotationY →
      (CameraCtrl.update s).rotationY = s.rotationY) ∧
    (s.targetZoom = s.zoom → CameraCtrl.MIN_ZOOM ≤ s.zoom →
      s.zoom ≤ CameraCtrl.MAX_ZOOM → (CameraCtrl.update s).zoom = s.zoom) := by
  refine ⟨?_, ?_, ?_, ?_, ?_, ?_⟩
  · intro h
    simpa [CameraCtrl.update] using lerp_contract s.targetRotationX s.rotationX h
  · intro h
    simpa [CameraCtrl.update] using lerp_contract s.targetRotationY s.rotationY h
  · intro hne hlo hhi
    have hle := abs_sub_clamp_le CameraCtrl.MIN_ZOOM CameraCtrl.MAX_ZOOM s.targetZoom
      (s.zoom + (s.targetZoom - s.zoom) * CameraCtrl.EASING_FACTOR) hlo hhi
    have hlt := lerp_contract s.targetZoom s.zoom hne
    exact lt_of_le_of_lt hle hlt
  · intro h
    simp [CameraCtrl.update, h]
  · intro h
    simp [CameraCtrl.update, h]
  · intro h hlo hhi
    have e : s.zoom + (s.targetZoom - s.zoom) * CameraCtrl.EASING_FACTOR = s.zoom := by
      rw [h]; ring
    show max _ (min _ _) = s.zoom
    rw [e, min_eq_right hhi, max_eq_right hlo]

/-- Witness for C2 at a concrete state: targetZoom = 1, current zoom = 0.7. -/
theorem claimC2_contraction_witness :
    |CameraCtrl.camS0.targetZoom - (CameraCtrl.update CameraCtrl.camS0).zoom| <
      |CameraCtrl.camS0.targetZoom - CameraCtrl.camS0.zoom| :=
  (claimC2_contraction CameraCtrl.camS0).2.2.1
    (by norm_num [CameraCtrl.camS0, CameraCtrl.initState])
    (by norm_num [CameraCtrl.camS0, CameraCtrl.initState, CameraCtrl.MIN_ZOOM])
    (by norm_num [CameraCtrl.camS0, CameraCtrl.initState, CameraCtrl.MAX_ZOOM])

/-! ## C3: Fibonacci sphere layout -/

lemma sphere_identity (r φ θ : ℝ) :
    (r * Real.sin φ * Real.cos θ) ^ 2 + (r * Real.sin φ * Real.sin θ) ^ 2 +
      (r * Real.cos φ) ^ 2 = r ^ 2 := by
  have h1 := Real.sin_sq_add_cos_sq θ
  have h2 := Real.sin_sq_add_cos_sq φ
  linear_combination (r ^ 2 * Real.sin φ ^ 2) * h1 + r ^ 2 * h2

/-- Claim C3: for every n, calculateBubblePositions over an n-item list
returns exactly n points (empty for n = 0); the i-th point has
phi = acos(1 - 2*(i/n)), theta = i * 2pi * goldenRatio with
goldenRatio = (1+sqrt 5)/2, a radius within 25 units of the 500-unit base
(jitter (random - 0.5) * 50 with random in [0,1)), Cartesian coordinates
x = r sin(phi) cos(theta), y = r sin(phi) sin(theta), z = r cos(phi), and
hence x^2 + y^2 + z^2 = radius^2 exactly. -/
theorem claimC3_sphere_layout (rnd : ℕ → ℝ) (n : ℕ)
    (hr : ∀ i, 0 ≤ rnd i ∧ rnd i < 1) :
    (Bubbles.calculateBubblePositions rnd n).length = n ∧
    (n = 0 → Bubbles.calculateBubblePositions rnd n = []) ∧
    (∀ (i : ℕ) (p : Bubbles.SpherePoint),
      (Bubbles.calculateBubblePositions rnd n)[i]? = some p →
      i < n ∧
      p.phi = Real.arccos (1 - 2 * ((i : ℝ) / (n : ℝ))) ∧
      p.theta = (i : ℝ) * (2 * Real.pi) * ((1 + Real.sqrt 5) / 2) ∧
      |p.radius - 500| ≤ 25 ∧
      p.x = p.radius * Real.sin p.phi * Real.cos p.theta ∧
      p.y = p.radius * Real.sin p.phi * Real.sin p.theta ∧
      p.z = p.radius * Real.cos p.phi ∧
      p.x ^ 2 + p.y ^ 2 + p.z ^ 2 = p.radius ^ 2) := by
  refine ⟨by simp [Bubbles.calculateBubblePositions], ?_, ?_⟩
  · intro h
    subst h
    simp [Bubbles.calculateBubblePositions]
  · intro i p hp
    have hlen : (Bubbles.calculateBubblePositions rnd n).length = n := by
      simp [Bubbles.calculateBubblePositions]
    have hi : i < n := by
      by_contra hni
      rw [List.getElem?_eq_none (by omega : (Bubbles.calculateBubblePositions rnd n).length ≤ i)] at hp
      exact Option.noConfusion hp
    rw [Bubbles.calculateBubblePositions, List.getElem?_map, List.getElem?_range hi] at hp
    simp only [Option.map_some'] at hp
    obtain rfl : _ = p := Option.some.inj hp
    refine ⟨hi, rfl, ?_, ?_, rfl, rfl, rfl, ?_⟩
    · show Real.pi * 2 * ((1 + Real.sqrt 5) / 2) * (i : ℝ) = _
      ring
    · show |Bubbles.SPHERE_RADIUS + (rnd i - 0.5) * Bubbles.POSITION_OFFSET - 500| ≤ 25
      obtain ⟨h0, h1⟩ := hr i
      rw [Bubbles.SPHERE_RADIUS, Bubbles.POSITION_OFFSET, abs_le]
      constructor <;> nlinarith
    · exact sphere_identity _ _ _

/-- Witness for C3: the constant random source 1/2 satisfies the [0,1)
hypothesis, and a 3-item layout has exactly 3 points. -/
theorem claimC3_sphere_layout_witness :
    (Bubbles.calculateBubblePositions (fun _ => (1 : ℝ) / 2) 3).length = 3 :=
  (claimC3_sphere_layout (fun _ => (1 : ℝ) / 2) 3 (by intro i; norm_num)).1

/-! ## C4: orbit-scene transform (yaw then pitch, float, zoom, z-index) -/

/-- Claim C4: for every camera state and object, the transform written by
updateBubbles equals the spec composition: rotate the stored sphere point
by yaw about the vertical axis, then by pitch about the horizontal axis,
then (unless the construction-time reduced-motion flag is set) add the
vertical oscillation amplitude * sin(speed * t + index), then scale all
axes by zoom; the draw-order key is round(1000 + z'). -/
theorem claimC4_transform (rotX rotY zoom : ℝ) (prm : Bool) (t : ℝ)
    (positions : List (ℝ × ℝ × ℝ)) :
    Bubbles.updateBubbles rotX rotY zoom prm t positions =
      positions.enum.map (fun ip =>
        Bubbles.specBubbleTransform rotX rotY zoom prm t ip.1 ip.2) := by
  unfold Bubbles.updateBubbles
  apply List.map_congr_left
  intro ip _
  rcases ip with ⟨i, x, y, z⟩
  simp only [Bubbles.specBubbleTransform, Bubbles.rotateX, Bubbles.rotateY]
  cases prm <;>
    · simp only [Bool.false_eq_true, if_false, if_true, Bubbles.BubbleTransform.mk.injEq]
      refine ⟨by ring_nf, by ring_nf, by ring_nf, ?_⟩
      congr 1
      ring_nf

/-! ## C5: screen-space picker -/

lemma pickStep_cases (x y : ℝ) (acc : Option (Bubbles.PickBubble × ℝ))
    (b : Bubbles.PickBubble) :
    (¬ Bubbles.isCandidate x y b ∧ Bubbles.pickStep x y acc b = acc) ∨
    (Bubbles.isCandidate x y b ∧
      ((acc = none ∧
          Bubbles.pickStep x y acc b = some (b, Bubbles.pickDistance x y b)) ∨
       (∃ q, acc = some q ∧
         ((Bubbles.pickDistance x y b < q.2 ∧
             Bubbles.pickStep x y acc b = some (b, Bubbles.pickDistance x y b)) ∨
          (¬ Bubbles.pickDistance x y b < q.2 ∧
             Bubbles.pickStep x y acc b = some q))))) := by
  by_cases hc : Bubbles.pickDistance x y b ≤
      Bubbles.BUBBLE_RADIUS * Bubbles.bubbleScale b + Bubbles.TOLERANCE
  · refine Or.inr ⟨hc, ?_⟩
    cases acc with
    | none => exact Or.inl ⟨rfl, by simp [Bubbles.pickStep, hc]⟩
    | some q =>
      refine Or.inr ⟨q, rfl, ?_⟩
      by_cases hlt : Bubbles.pickDistance x y b < q.2
      · exact Or.inl ⟨hlt, by simp [Bubbles.pickStep, hc, hlt]⟩
      · exact Or.inr ⟨hlt, by simp [Bubbles.pickStep, hc, hlt]⟩
  · refine Or.inl ⟨hc, ?_⟩
    cases acc with
    | none => simp [Bubbles.pickStep, hc]
    | some q => simp [Bubbles.pickStep, hc]

lemma pickFold_spec (x y : ℝ) :
    ∀ (l : List Bubbles.PickBubble) (acc : Option (Bubbles.PickBubble × ℝ)),
      (∀ q, acc = some q → q.2 = Bubbles.pickDistance x y q.1) →
      ((∀ b ∈ l, ¬ Bubbles.isCandidate x y b) →
        l.foldl (Bubbles.pickStep x y) acc = acc) ∧
      (∀ p, l.foldl (Bubbles.pickStep x y) acc = some p →
        (acc = some p ∨ (p.1 ∈ l ∧ Bubbles.isCandidate x y p.1)) ∧
        p.2 = Bubbles.pickDistance x y p.1 ∧
        (∀ q, acc = some q → p.2 ≤ q.2) ∧
        (∀ b ∈ l, Bubbles.isCandidate x y b →
          p.2 ≤ Bubbles.pickDistance x y b)) := by
  intro l
  induction l with
  | nil =>
    intro acc hinv
    refine ⟨fun _ => rfl, ?_⟩
    intro p hp
    have hap : acc = some p := hp
    refine ⟨Or.inl hap, by rw [hinv p hap], ?_, fun b hb => absurd hb (List.not_mem_nil b)⟩
    intro q hq
    rw [hap] at hq
    rw [Option.some.inj hq]
  | cons b tl ih =>
    intro acc hinv
    rcases pickStep_cases x y acc b with ⟨hnc, hstep⟩ | ⟨hc, hrest⟩
    · -- head is not a candidate: the accumulator passes through unchanged
      have ih' := ih acc hinv
      constructor
      · intro hall
        rw [List.foldl_cons, hstep]
        exact ih'.1 (fun b' hb' => hall b' (List.mem_cons_of_mem b hb'))
      · intro p hp
        rw [List.foldl_cons, hstep] at hp
        obtain ⟨hor, hd, hmono, hmin⟩ := ih'.2 p hp
        refine ⟨?_, hd, hmono, ?_⟩
        · rcases hor with h | ⟨hm, hcand⟩
          · exact Or.inl h
          · exact Or.inr ⟨List.mem_cons_of_mem b hm, hcand⟩
        · intro b' hb' hcand'
          rcases List.mem_cons.1 hb' with rfl | hm
          · exact absurd hcand' hnc
          · exact hmin b' hm hcand'
    · -- head is a candidate: the accumulator after the head is some q'
      -- with q'.2 ≤ dist b and q'.2 ≤ (previous q).2
      obtain ⟨q', hstep, hq'd, hq'le, hq'mono, hq'or⟩ :
          ∃ q', Bubbles.pickStep x y acc b = some q' ∧
            q'.2 = Bubbles.pickDistance x y q'.1 ∧
            q'.2 ≤ Bubbles.pickDistance x y b ∧
            (∀ q, acc = some q → q'.2 ≤ q.2) ∧
            (acc = some q' ∨ (q'.1 = b ∧ Bubbles.isCandidate x y q'.1)) := by
        rcases hrest with ⟨hnone, hstep⟩ | ⟨q, hq, ⟨hlt, hstep⟩ | ⟨hge, hstep⟩⟩
        · exact ⟨(b, Bubbles.pickDistance x y b), hstep, rfl, le_refl _,
            fun q hq => by rw [hnone] at hq; exact Option.noConfusion hq,
            Or.inr ⟨rfl, hc⟩⟩
        · exact ⟨(b, Bubbles.pickDistance x y b), hstep, rfl, le_refl _,
            fun q0 hq0 => by
              rw [hq] at hq0
              rw [← Option.some.inj hq0]
              exact le_of_lt hlt,
            Or.inr ⟨rfl, hc⟩⟩
        · refine ⟨q, hstep, hinv q hq, not_lt.1 hge, ?_, Or.inl hq⟩
          intro q0 hq0
          rw [hq] at hq0
          rw [← Option.some.inj hq0]
      have hinv' : ∀ q0, some q' = some q0 → q0.2 = Bubbles.pickDistance x y q0.1 := by
        intro q0 hq0
        rw [← Option.some.inj hq0]
        exact hq'd
      have ih' := ih (some q') hinv'
      constructor
      · intro hall
        exact absurd hc (hall b (List.mem_cons_self b tl))
      · intro p hp
        rw [List.foldl_cons, hstep] at hp
        obtain ⟨hor, hd, hmono, hmin⟩ := ih'.2 p hp
        have hple : p.2 ≤ q'.2 := hmono q' rfl
        refine ⟨?_, hd, ?_, ?_⟩
        · rcases hor with h | ⟨hm, hcand⟩
          · -- p = q': q' is either the old accumulator or the head
            rcases hq'or with hacc | ⟨hq'b, hq'c⟩
            · exact Or.inl (by rw [hacc, Option.some.inj h])
            · refine Or.inr ⟨?_, by rw [← Option.some.inj h]; exact hq'c⟩
              rw [← Option.some.inj h, hq'b]
              exact List.mem_cons_self b tl
          · exact Or.inr ⟨List.mem_cons_of_mem b hm, hcand⟩
        · intro q0 hq0
          exact le_trans hple (hq'mono q0 hq0)
        · intro b' hb' hcand'
          rcases List.mem_cons.1 hb' with rfl | hm
          · exact le_trans hple hq'le
          · exact hmin b' hm hcand'

/-- Claim C5: getBubbleAt returns an object only if the distance from the
query point to its center is at most 60 * scale + 10; among all such
candidates it returns one at minimum distance (nearest center, not paint
order); it returns none when no object meets the threshold, and in
particular always none for the empty list. -/
theorem claimC5_picker (x y : ℝ) (bubbles : List Bubbles.PickBubble) :
    (Bubbles.getBubbleAt x y [] = none) ∧
    (∀ b, Bubbles.getBubbleAt x y bubbles = some b →
      b ∈ bubbles ∧ Bubbles.isCandidate x y b ∧
      ∀ b' ∈ bubbles, Bubbles.isCandidate x y b' →
        Bubbles.pickDistance x y b ≤ Bubbles.pickDistance x y b') ∧
    ((∀ b' ∈ bubbles, ¬ Bubbles.isCandidate x y b') →
      Bubbles.getBubbleAt x y bubbles = none) := by
  have hspec := pickFold_spec x y bubbles none (fun q hq => Option.noConfusion hq)
  refine ⟨rfl, ?_, ?_⟩
  · intro b hb
    rw [Bubbles.getBubbleAt, Option.map_eq_some'] at hb
    obtain ⟨p, hp, hfst⟩ := hb
    obtain ⟨hor, hd, _, hmin⟩ := hspec.2 p hp
    rcases hor with h | ⟨hm, hcand⟩
    · exact Option.noConfusion h
    · subst hfst
      refine ⟨hm, hcand, ?_⟩
      intro b' hb' hcand'
      have := hmin b' hb' hcand'
      rw [hd] at this
      exact this
  · intro hnone
    rw [Bubbles.getBubbleAt, hspec.1 hnone]
    rfl

/-- Witness for C5: a single bubble centered at the query point is returned
and is a candidate at distance 0. -/
theorem claimC5_picker_witness :
    Bubbles.pickB0 ∈ [Bubbles.pickB0] ∧ Bubbles.isCandidate 0 0 Bubbles.pickB0 := by
  have heval : Bubbles.getBubbleAt 0 0 [Bubbles.pickB0] = some Bubbles.pickB0 := by
    have hd : Bubbles.pickDistance 0 0 Bubbles.pickB0 = 0 := by
      simp [Bubbles.pickDistance, Bubbles.pickB0]
    simp only [Bubbles.getBubbleAt, List.foldl_cons, List.foldl_nil, Bubbles.pickStep, hd]
    rw [if_pos (by norm_num [Bubbles.pickB0, Bubbles.bubbleScale, Bubbles.BUBBLE_RADIUS,
      Bubbles.TOLERANCE])]
    rfl
  have h := (claimC5_picker 0 0 [Bubbles.pickB0]).2.1 Bubbles.pickB0 heval
  exact ⟨h.1, h.2.1⟩

/-! ## C6: walk-camera boundary invariant and W-key scenario -/

lemma updateMovement_eq (s : Walk.State) :
    ∃ tx tz, Walk.updateMovement s =
      { s with
          targetPositionX := max (-Walk.hallwayWidth) (min Walk.hallwayWidth tx),
          targetPositionZ := max (-Walk.hallwayLength) (min Walk.hallwayForwardLimit tz),
          targetPositionY := 0 } := by
  unfold Walk.updateMovement
  dsimp only
  split_ifs <;> exact ⟨_, _, rfl⟩

lemma updateCamera_fields (s : Walk.State) :
    (Walk.updateCamera s).keyW = s.keyW ∧
    (Walk.updateCamera s).keyA = s.keyA ∧
    (Walk.updateCamera s).keyS = s.keyS ∧
    (Walk.updateCamera s).keyD = s.keyD ∧
    (Walk.updateCamera s).targetRotationY = s.targetRotationY ∧
    (Walk.updateCamera s).rotationY =
      s.rotationY + (s.targetRotationY - s.rotationY) * 0.15 ∧
    (Walk.updateCamera s).targetPositionZ = (Walk.updateMovement s).targetPositionZ := by
  obtain ⟨tx, tz, hm⟩ := updateMovement_eq s
  unfold Walk.updateCamera
  dsimp only
  rw [hm]
  exact ⟨rfl, rfl, rfl, rfl, rfl, rfl, rfl⟩

lemma walk_tick_inv (s : Walk.State) (h : Walk.walkInv s) :
    Walk.walkInv (Walk.updateCamera s) := by
  obtain ⟨⟨htx1, htx2, htz1, htz2⟩, hty, ⟨hpx1, hpx2, hpz1, hpz2⟩, hpy⟩ := h
  obtain ⟨tx, tz, hm⟩ := updateMovement_eq s
  have hW : (-Walk.hallwayWidth : ℝ) ≤ Walk.hallwayWidth := by
    norm_num [Walk.hallwayWidth]
  have hZ : (-Walk.hallwayLength : ℝ) ≤ Walk.hallwayForwardLimit := by
    norm_num [Walk.hallwayLength, Walk.hallwayForwardLimit]
  have hcx := clamp_mem (-Walk.hallwayWidth) Walk.hallwayWidth tx hW
  have hcz := clamp_mem (-Walk.hallwayLength) Walk.hallwayForwardLimit tz hZ
  unfold Walk.updateCamera
  dsimp only
  rw [hm]
  refine ⟨⟨hcx.1, hcx.2, hcz.1, hcz.2⟩, rfl, ⟨?_, ?_, ?_, ?_⟩, ?_⟩
  · show -Walk.hallwayWidth ≤
      s.positionX + (max (-Walk.hallwayWidth) (min Walk.hallwayWidth tx) - s.positionX) * 0.12
    nlinarith [hcx.1, hcx.2]
  · show s.positionX + (max (-Walk.hallwayWidth) (min Walk.hallwayWidth tx) - s.positionX) * 0.12 ≤
      Walk.hallwayWidth
    nlinarith [hcx.1, hcx.2]
  · show -Walk.hallwayLength ≤
      s.positionZ + (max (-Walk.hallwayLength) (min Walk.hallwayForwardLimit tz) - s.positionZ) * 0.12
    nlinarith [hcz.1, hcz.2, hZ]
  · show s.positionZ + (max (-Walk.hallwayLength) (min Walk.hallwayForwardLimit tz) - s.positionZ) * 0.12 ≤
      Walk.hallwayForwardLimit
    nlinarith [hcz.1, hcz.2, hZ]
  · show s.positionY + (0 - s.positionY) * 0.12 = 0
    rw [hpy]
    ring

lemma walk_op_inv (s : Walk.State) (h : Walk.walkInv s) (op : Walk.WalkOp) :
    Walk.walkInv (Walk.applyWalkOp s op) := by
  cases op with
  | tick => exact walk_tick_inv s h
  | keyDown k => fin_cases k <;> exact h
  | keyUp k => fin_cases k <;> exact h
  | look dx dy => exact h

lemma walk_inv_init : Walk.walkInv Walk.initState := by
  norm_num [Walk.walkInv, Walk.inBox, Walk.initState, Walk.hallwayWidth,
    Walk.hallwayLength, Walk.hallwayForwardLimit]

lemma walk_inv_foldl (ops : List Walk.WalkOp) :
    ∀ s, Walk.walkInv s → Walk.walkInv (ops.foldl Walk.applyWalkOp s) := by
  induction ops with
  | nil => intro s h; simpa using h
  | cons op rest ih =>
    intro s h
    simpa using ih _ (walk_op_inv s h op)

lemma updateMovement_w (s : Walk.State) (hw : s.keyW = true) (ha : s.keyA = false)
    (hs : s.keyS = false) (hd : s.keyD = false) (hy : s.rotationY = 0) :
    (Walk.updateMovement s).targetPositionZ =
      max (-Walk.hallwayLength)
        (min Walk.hallwayForwardLimit (s.targetPositionZ - Walk.moveSpeed)) := by
  unfold Walk.updateMovement
  dsimp only
  rw [hw, ha, hs, hd, hy]
  simp

lemma walk_w_scenario (n : ℕ) :
    (Walk.updateCamera^[n] Walk.wState).keyW = true ∧
    (Walk.updateCamera^[n] Walk.wState).keyA = false ∧
    (Walk.updateCamera^[n] Walk.wState).keyS = false ∧
    (Walk.updateCamera^[n] Walk.wState).keyD = false ∧
    (Walk.updateCamera^[n] Walk.wState).rotationY = 0 ∧
    (Walk.updateCamera^[n] Walk.wState).targetRotationY = 0 ∧
    (Walk.updateCamera^[n] Walk.wState).targetPositionZ =
      max (-Walk.hallwayLength) (Walk.hallwayForwardLimit - Walk.moveSpeed * n) := by
  induction n with
  | zero =>
    refine ⟨rfl, rfl, rfl, rfl, rfl, rfl, ?_⟩
    rw [Function.iterate_zero_apply]
    have e : Walk.hallwayForwardLimit - Walk.moveSpeed * ((0 : ℕ) : ℝ) =
        Walk.hallwayForwardLimit := by
      norm_num
    rw [e, max_eq_right (by norm_num [Walk.hallwayLength, Walk.hallwayForwardLimit])]
    rfl
  | succ n ih =>
    obtain ⟨ihw, iha, ihs, ihd, ihry, ihtry, ihz⟩ := ih
    have hf := updateCamera_fields (Walk.updateCamera^[n] Walk.wState)
    rw [Function.iterate_succ_apply']
    refine ⟨?_, ?_, ?_, ?_, ?_, ?_, ?_⟩
    · rw [hf.1, ihw]
    · rw [hf.2.1, iha]
    · rw [hf.2.2.1, ihs]
    · rw [hf.2.2.2.1, ihd]
    · rw [hf.2.2.2.2.2.1, ihry, ihtry]
      ring
    · rw [hf.2.2.2.2.1, ihtry]
    · rw [hf.2.2.2.2.2.2, updateMovement_w _ ihw iha ihs ihd ihry, ihz]
      have h8 : (0 : ℝ) ≤ Walk.moveSpeed * (n : ℝ) := by
        have hn0 : (0 : ℝ) ≤ (n : ℝ) := Nat.cast_nonneg n
        rw [Walk.moveSpeed]
        linarith
      rcases le_total (Walk.hallwayForwardLimit - Walk.moveSpeed * (n : ℝ))
          (-Walk.hallwayLength) with h | h
      · rw [max_eq_left h]
        have e1 : min Walk.hallwayForwardLimit (-Walk.hallwayLength - Walk.moveSpeed) =
            -Walk.hallwayLength - Walk.moveSpeed := by
          rw [min_eq_right]
          norm_num [Walk.hallwayLength, Walk.hallwayForwardLimit, Walk.moveSpeed]
        rw [e1, max_eq_left (by norm_num [Walk.hallwayLength, Walk.moveSpeed]),
          max_eq_left ?hle]
        case hle =>
          push_cast
          norm_num [Walk.moveSpeed] at h ⊢
          linarith
      · rw [max_eq_right h]
        have e2 : min Walk.hallwayForwardLimit
            (Walk.hallwayForwardLimit - Walk.moveSpeed * (n : ℝ) - Walk.moveSpeed) =
            Walk.hallwayForwardLimit - Walk.moveSpeed * (n : ℝ) - Walk.moveSpeed := by
          rw [min_eq_right]
          norm_num [Walk.moveSpeed] at h8 ⊢
          linarith
        rw [e2]
        congr 1
        push_cast
        ring

/-- Claim C6: after every tick (under any interleaving of key events, look
events and ticks from startup) the target position satisfies the hallway
boundary |x| <= hallwayWidth, z in [-hallwayLength, hallwayForwardLimit],
with target y pinned to 0, and the interpolated current position satisfies
the same boundary; and holding only W with yaw 0, targetPosition.z
decreases by exactly moveSpeed per tick until it reaches -hallwayLength
(closed form max(-hallwayLength, 600 - 8n)) and stays exactly there on all
later ticks. -/
theorem claimC6_walk :
    (∀ ops : List Walk.WalkOp,
      Walk.walkInv (ops.foldl Walk.applyWalkOp Walk.initState)) ∧
    (∀ n : ℕ, (Walk.updateCamera^[n] Walk.wState).targetPositionZ =
      max (-Walk.hallwayLength) (Walk.hallwayForwardLimit - Walk.moveSpeed * n)) ∧
    (∀ n : ℕ, n < 475 →
      (Walk.updateCamera^[n + 1] Walk.wState).targetPositionZ =
        (Walk.updateCamera^[n] Walk.wState).targetPositionZ - Walk.moveSpeed) ∧
    (∀ n : ℕ, 475 ≤ n →
      (Walk.updateCamera^[n] Walk.wState).targetPositionZ = -Walk.hallwayLength) := by
  refine ⟨fun ops => walk_inv_foldl ops _ walk_inv_init, ?_, ?_, ?_⟩
  · intro n
    exact (walk_w_scenario n).2.2.2.2.2.2
  · intro n hn
    have h1 := (walk_w_scenario n).2.2.2.2.2.2
    have h2 := (walk_w_scenario (n + 1)).2.2.2.2.2.2
    rw [h1, h2]
    have hc : (n : ℝ) ≤ 474 := by
      have : n ≤ 474 := by omega
      exact_mod_cast this
    have e1 : max (-Walk.hallwayLength)
        (Walk.hallwayForwardLimit - Walk.moveSpeed * ((n : ℕ) : ℝ)) =
        Walk.hallwayForwardLimit - Walk.moveSpeed * (n : ℝ) := by
      rw [max_eq_right]
      norm_num [Walk.hallwayLength, Walk.hallwayForwardLimit, Walk.moveSpeed]
      linarith
    have e2 : max (-Walk.hallwayLength)
        (Walk.hallwayForwardLimit - Walk.moveSpeed * ((n + 1 : ℕ) : ℝ)) =
        Walk.hallwayForwardLimit - Walk.moveSpeed * ((n + 1 : ℕ) : ℝ) := by
      rw [max_eq_right]
      push_cast
      norm_num [Walk.hallwayLength, Walk.hallwayForwardLimit, Walk.moveSpeed]
      linarith
    rw [e1, e2]
    push_cast
    ring
  · intro n hn
    have h1 := (walk_w_scenario n).2.2.2.2.2.2
    rw [h1, max_eq_left]
    have hc : (475 : ℝ) ≤ (n : ℝ) := by exact_mod_cast hn
    norm_num [Walk.hallwayLength, Walk.hallwayForwardLimit, Walk.moveSpeed]
    linarith

/-- Witness for C6: the very first W-held tick moves the target exactly
moveSpeed deeper into the hallway. -/
theorem claimC6_walk_witness :
    (Walk.updateCamera^[0 + 1] Walk.wState).targetPositionZ =
      (Walk.updateCamera^[0] Walk.wState).targetPositionZ - Walk.moveSpeed :=
  claimC6_walk.2.2.1 0 (by norm_num)

/-! ## C7: pinch zoom -/

lemma getTouchDistance_eq (p q : ℝ × ℝ) :
    CameraCtrl.getTouchDistance p q = CameraCtrl.euclideanDist p q := by
  unfold CameraCtrl.getTouchDistance CameraCtrl.euclideanDist
  ring_nf

lemma pinch_move_formula (t1 t2 : ℝ × ℝ) (s' : CameraCtrl.State) (d0 z0 : ℝ)
    (h1 : s'.initialPinchDistance = some d0)
    (h2 : s'.initialPinchZoom = some z0) :
    (CameraCtrl.handleTouchMove [t1, t2] s').targetZoom =
      max CameraCtrl.MIN_ZOOM (min CameraCtrl.MAX_ZOOM
        (z0 * (CameraCtrl.euclideanDist t1 t2 / d0))) := by
  simp only [CameraCtrl.handleTouchMove, h1, h2, Option.getD_some]
  rw [getTouchDistance_eq]

lemma pinch_moves_baseline :
    ∀ (moves : List ((ℝ × ℝ) × (ℝ × ℝ))) (st : CameraCtrl.State),
      ((moves.foldl (fun st m => CameraCtrl.handleTouchMove [m.1, m.2] st)
          st).initialPinchDistance = st.initialPinchDistance) ∧
      ((moves.foldl (fun st m => CameraCtrl.handleTouchMove [m.1, m.2] st)
          st).initialPinchZoom = st.initialPinchZoom) := by
  intro moves
  induction moves with
  | nil => intro st; exact ⟨rfl, rfl⟩
  | cons m rest ih =>
    intro st
    rw [List.foldl_cons]
    have hstep :
        (CameraCtrl.handleTouchMove [m.1, m.2] st).initialPinchDistance =
          st.initialPinchDistance ∧
        (CameraCtrl.handleTouchMove [m.1, m.2] st).initialPinchZoom =
          st.initialPinchZoom := by
      cases hs : st.initialPinchDistance with
      | none => simp [CameraCtrl.handleTouchMove, hs]
      | some d0 => simp [CameraCtrl.handleTouchMove, hs]
    obtain ⟨ha, hb⟩ := ih (CameraCtrl.handleTouchMove [m.1, m.2] st)
    exact ⟨ha.trans hstep.1, hb.trans hstep.2⟩

/-- Claim C7: during a two-finger gesture, each move event sets targetZoom
to initialPinchZoom * (currentDistance / initialDistance), clamped to
[MIN_ZOOM, MAX_ZOOM], with both distances Euclidean: (1) any two-finger
move on any state whose captured baseline fields are set — including
mid-gesture states where targetZoom has already drifted from the captured
zoom — applies exactly that formula; (2) a two-finger move never changes
the captured baseline, so it persists across the gesture; (3) hence for
every move of a gesture opened by handleTouchStart, after any number of
earlier moves, targetZoom is the capture-time zoom times the ratio of the
current to the gesture-start Euclidean distance, clamped. -/
theorem claimC7_pinch (s : CameraCtrl.State) (t1s t2s t1 t2 : ℝ × ℝ) :
    (∀ (s' : CameraCtrl.State) (d0 z0 : ℝ),
      s'.initialPinchDistance = some d0 →
      s'.initialPinchZoom = some z0 →
      (CameraCtrl.handleTouchMove [t1, t2] s').targetZoom =
        max CameraCtrl.MIN_ZOOM (min CameraCtrl.MAX_ZOOM
          (z0 * (CameraCtrl.euclideanDist t1 t2 / d0)))) ∧
    (∀ s' : CameraCtrl.State,
      (CameraCtrl.handleTouchMove [t1, t2] s').initialPinchDistance =
        s'.initialPinchDistance ∧
      (CameraCtrl.handleTouchMove [t1, t2] s').initialPinchZoom =
        s'.initialPinchZoom) ∧
    (∀ moves : List ((ℝ × ℝ) × (ℝ × ℝ)),
      ((moves ++ [(t1, t2)]).foldl
          (fun st m => CameraCtrl.handleTouchMove [m.1, m.2] st)
          (CameraCtrl.handleTouchStart [t1s, t2s] s)).targetZoom =
        max CameraCtrl.MIN_ZOOM (min CameraCtrl.MAX_ZOOM
          (s.targetZoom *
            (CameraCtrl.euclideanDist t1 t2 / CameraCtrl.euclideanDist t1s t2s)))) := by
  refine ⟨?_, ?_, ?_⟩
  · intro s' d0 z0 h1 h2
    exact pinch_move_formula t1 t2 s' d0 z0 h1 h2
  · intro s'
    cases hs : s'.initialPinchDistance with
    | none => simp [CameraCtrl.handleTouchMove, hs]
    | some d0 => simp [CameraCtrl.handleTouchMove, hs]
  · intro moves
    rw [List.foldl_append, List.foldl_cons, List.foldl_nil]
    obtain ⟨hd, hz⟩ :=
      pinch_moves_baseline moves (CameraCtrl.handleTouchStart [t1s, t2s] s)
    have hd' : (moves.foldl (fun st m => CameraCtrl.handleTouchMove [m.1, m.2] st)
        (CameraCtrl.handleTouchStart [t1s, t2s] s)).initialPinchDistance =
        some (CameraCtrl.getTouchDistance t1s t2s) := hd.trans rfl
    have hz' : (moves.foldl (fun st m => CameraCtrl.handleTouchMove [m.1, m.2] st)
        (CameraCtrl.handleTouchStart [t1s, t2s] s)).initialPinchZoom =
        some s.targetZoom := hz.trans rfl
    rw [pinch_move_formula t1 t2 _ _ _ hd' hz', getTouchDistance_eq]

/-- Witness for C7 at a concrete mid-gesture state: the captured baseline
is distance 5 and zoom 1 while targetZoom has drifted to 0.7; the move at
touches (0,0) and (3,4) applies the captured-baseline formula. -/
theorem claimC7_pinch_witness :
    (CameraCtrl.handleTouchMove [((0 : ℝ), (0 : ℝ)), ((3 : ℝ), (4 : ℝ))]
        CameraCtrl.camPinch0).targetZoom =
      max CameraCtrl.MIN_ZOOM (min CameraCtrl.MAX_ZOOM
        (1 * (CameraCtrl.euclideanDist ((0 : ℝ), (0 : ℝ)) ((3 : ℝ), (4 : ℝ)) / 5))) :=
  (claimC7_pinch CameraCtrl.initState ((0 : ℝ), 0) ((3 : ℝ), 4)
      ((0 : ℝ), 0) ((3 : ℝ), 4)).1 CameraCtrl.camPinch0 5 1 rfl rfl

/-! ## C8: frame throttling -/

lemma animateRun_count_eq : ∀ (ts : List ℚ) (s : Sched.MuseumState) (c : ℕ),
    (ts.foldl Sched.animStep (s, c)).2 =
      (ts.foldl Sched.throttleStep (s.lastFrame, c)).2 := by
  intro ts
  induction ts with
  | nil => intro s c; rfl
  | cons t rest ih =>
    intro s c
    rw [List.foldl_cons, List.foldl_cons]
    by_cases h : t - s.lastFrame < 1667 / 100
    · rw [show Sched.animStep (s, c) t = (s, c) from by
        simp [Sched.animStep, Sched.animate, h]]
      rw [show Sched.throttleStep (s.lastFrame, c) t = (s.lastFrame, c) from by
        simp [Sched.throttleStep, h]]
      exact ih s c
    · rw [show Sched.animStep (s, c) t = ((Sched.animate s t).1, c + 1) from by
        simp [Sched.animStep, Sched.animate, h]]
      rw [show Sched.throttleStep (s.lastFrame, c) t = (t, c + 1) from by
        simp [Sched.throttleStep, h]]
      rw [ih ((Sched.animate s t).1) (c + 1)]
      congr 1
      simp [Sched.animate, h]

/-- Claim C8: a callback whose elapsed time since the last accepted tick is
below 16.67 ms leaves the whole state (camera, transforms, lastFrame)
untouched and does no work; otherwise it updates the camera, recomputes
every object transform, and records the callback timestamp; consequently
callbacks arriving every 5 ms (0, 5, ..., 80) do work exactly 4 times out
of 17, i.e. on every 4th callback. -/
theorem claimC8_throttle :
    (∀ (s : Sched.MuseumState) (t : ℚ), t - s.lastFrame < 1667 / 100 →
      Sched.animate s t = (s, false)) ∧
    (∀ (s : Sched.MuseumState) (t : ℚ), ¬ t - s.lastFrame < 1667 / 100 →
      Sched.animate s t =
        ({ s with
            cam := CameraCtrl.update s.cam,
            transforms := Bubbles.updateBubbles (CameraCtrl.update s.cam).rotationX
              (CameraCtrl.update s.cam).rotationY (CameraCtrl.update s.cam).zoom
              s.prefersReducedMotion (t : ℝ) s.positions,
            lastFrame := t }, true)) ∧
    (Sched.animateRun Sched.museumS0 Sched.fiveMsTicks).2 = 4 := by
  refine ⟨?_, ?_, ?_⟩
  · intro s t h
    simp [Sched.animate, h]
  · intro s t h
    simp [Sched.animate, h]
  · rw [Sched.animateRun, animateRun_count_eq Sched.fiveMsTicks Sched.museumS0 0]
    show (Sched.fiveMsTicks.foldl Sched.throttleStep (0, 0)).2 = 4
    norm_num [Sched.fiveMsTicks, Sched.throttleStep, List.range_succ,
      List.foldl_cons, List.foldl_nil]

/-- Witness for C8: with lastFrame = 0, the callback at 5 ms is skipped and
the state is returned unchanged. -/
theorem claimC8_throttle_witness :
    Sched.animate Sched.museumS0 5 = (Sched.museumS0, false) :=
  claimC8_throttle.1 Sched.museumS0 5 (by norm_num [Sched.museumS0])

/-! ## C9: yaw clamping (corrected: touch drags do clamp yaw) -/

/-- Counterexample to C9 as stated: a single-finger touch drag of 2000 px
from yaw 40 yields targetRotation.y = 360 (clamped to ROTATION_LIMIT), not
the unclamped 40 + 2000 * 0.2 = 440. -/
theorem claimC9_counterexample :
    (CameraCtrl.handleTouchMove [((2000 : ℝ), 0)] CameraCtrl.camTouch0).targetRotationY
      = 360 ∧
    CameraCtrl.camTouch0.targetRotationY + 2000 * 0.2 ≠ (360 : ℝ) := by
  constructor
  · simp only [CameraCtrl.handleTouchMove, CameraCtrl.camTouch0, CameraCtrl.initState]
    norm_num [CameraCtrl.ROTATION_LIMIT, min_def, max_def]
  · norm_num [CameraCtrl.camTouch0, CameraCtrl.initState]

/-- C9 amended: a mouse drag adds the sensitivity-scaled delta to the
target yaw with no clamping, but a single-finger touch drag clamps both
target rotation axes to [-ROTATION_LIMIT, ROTATION_LIMIT] = [-360, 360]
after adding its delta. -/
theorem claimC9_amended (s : CameraCtrl.State) (cx cy lx ly dx dy tx ty : ℝ) :
    ((CameraCtrl.handleMouseMove cx cy
        { s with isDragging := true, lastMousePos := some (lx, ly),
                 dragStartPos := some (dx, dy) }).targetRotationY =
      s.targetRotationY - (cx - lx) * CameraCtrl.dragSensitivity) ∧
    ((CameraCtrl.handleTouchMove [(tx, ty)]
        { s with lastTouchPos := some (lx, ly) }).targetRotationY =
      max (-CameraCtrl.ROTATION_LIMIT)
        (min CameraCtrl.ROTATION_LIMIT (s.targetRotationY + (tx - lx) * 0.2))) := by
  constructor
  · simp [CameraCtrl.handleMouseMove]
  · simp [CameraCtrl.handleTouchMove]

/-! ## C10: constructor validation -/

lemma optimal_pos (k : ℕ) (d : Ctor.DeviceInfo) (hk : k ≠ 0) :
    Ctor.getOptimalBubbleCount k d ≠ 0 := by
  unfold Ctor.getOptimalBubbleCount
  split_ifs <;> omega

/-- Claim C10: the PortfolioMuseum constructor throws when config is
missing, when config.container is missing/falsy, when config.data is
missing/falsy, and — once the container resolves — when config.data is a
truthy non-array or an empty array; consequently every successful
construction carries a non-empty item list. -/
theorem claimC10_constructor (d : Ctor.DeviceInfo) :
    (Ctor.constructorCheck d none =
      .error ("PortfolioMuseum requires a configuration object")) ∧
    (∀ cfg : Ctor.Config, cfg.container = none →
      Ctor.constructorCheck d (some cfg) =
        .error ("PortfolioMuseum requires a container in config")) ∧
    (∀ (cfg : Ctor.Config) (c : Ctor.ContainerVal), cfg.container = some c →
      cfg.data = none →
      Ctor.constructorCheck d (some cfg) =
        .error ("PortfolioMuseum requires portfolio data in config")) ∧
    (∀ (cfg : Ctor.Config) (c : Ctor.ContainerVal), cfg.container = some c →
      (c = Ctor.ContainerVal.selectorFound ∨ c = Ctor.ContainerVal.element) →
      (cfg.data = some Ctor.DataVal.nonArrayTruthy ∨
        cfg.data = some (Ctor.DataVal.array [])) →
      Ctor.constructorCheck d (some cfg) =
        .error ("Portfolio data must be a non-empty array")) ∧
    (∀ (cfg : Ctor.Config) (items : List ℕ),
      Ctor.constructorCheck d (some cfg) = .ok items → items ≠ []) := by
  refine ⟨rfl, ?_, ?_, ?_, ?_⟩
  · intro cfg h
    rcases cfg with ⟨copt, dopt⟩
    cases h
    rfl
  · intro cfg c hc hd
    rcases cfg with ⟨copt, dopt⟩
    cases hc
    cases hd
    rfl
  · intro cfg c hc hcv hd
    rcases cfg with ⟨copt, dopt⟩
    cases hc
    rcases hcv with rfl | rfl <;> rcases hd with hd | hd <;> cases hd <;> rfl
  · intro cfg items hok
    rcases cfg with ⟨copt, dopt⟩
    cases copt with
    | none => exact Except.noConfusion hok
    | some c =>
      cases dopt with
      | none => exact Except.noConfusion hok
      | some dv =>
        cases c with
        | selectorNotFound => exact Except.noConfusion hok
        | invalid => exact Except.noConfusion hok
        | selectorFound =>
          cases dv with
          | nonArrayTruthy => exact Except.noConfusion hok
          | array items0 =>
            cases items0 with
            | nil => exact Except.noConfusion hok
            | cons a tl =>
              have hitems : items =
                  (a :: tl).take (Ctor.getOptimalBubbleCount (a :: tl).length d) :=
                (Except.ok.inj hok).symm
              have hk := optimal_pos (a :: tl).length d (by simp)
              rcases hn : Ctor.getOptimalBubbleCount (a :: tl).length d with _ | m
              · exact absurd hn hk
              · rw [hitems, hn, List.take_succ_cons]
                simp
        | element =>
          cases dv with
          | nonArrayTruthy => exact Except.noConfusion hok
          | array items0 =>
            cases items0 with
            | nil => exact Except.noConfusion hok
            | cons a tl =>
              have hitems : items =
                  (a :: tl).take (Ctor.getOptimalBubbleCount (a :: tl).length d) :=
                (Except.ok.inj hok).symm
              have hk := optimal_pos (a :: tl).length d (by simp)
              rcases hn : Ctor.getOptimalBubbleCount (a :: tl).length d with _ | m
              · exact absurd hn hk
              · rw [hitems, hn, List.take_succ_cons]
                simp

/-- Witness for C10: a resolving container with an empty data array is
rejected with the non-empty-array error. -/
theorem claimC10_constructor_witness :
    Ctor.constructorCheck Ctor.devDesktop (some Ctor.cfgEmpty) =
      .error ("Portfolio data must be a non-empty array") :=
  (claimC10_constructor Ctor.devDesktop).2.2.2.1 Ctor.cfgEmpty
    Ctor.ContainerVal.element rfl (Or.inr rfl) (Or.inr rfl)
